import Mathlib

/-!
Verification of the statistical computation routines of the
DataScientist_Statistics repository: descriptive statistics, the
two-proportion Z-test, minimum detectable effect, CUPED covariate
adjustment, and confidence-interval constructions.  Samples are modelled
as real vectors `Fin n → ℝ`; the external numerical-library collaborators
(standard-normal CDF and quantile, Student-t quantile) are passed as
function parameters, as the spec treats them as external dependencies.
-/

namespace Stats

noncomputable section

/-- Arithmetic mean of a sample: sum divided by length (np.mean). -/
def mean {n : ℕ} (X : Fin n → ℝ) : ℝ := (∑ i, X i) / (n : ℝ)

/-- Population variance, denominator n (np.var with its default ddof = 0). -/
def varPop {n : ℕ} (X : Fin n → ℝ) : ℝ := (∑ i, (X i - mean X) ^ 2) / (n : ℝ)

/-- Population covariance, denominator n. -/
def covPop {n : ℕ} (X Y : Fin n → ℝ) : ℝ :=
  (∑ i, (X i - mean X) * (Y i - mean Y)) / (n : ℝ)

/-- Sample covariance, denominator n - 1 (np.cov with its default ddof = 1). -/
def covSample {n : ℕ} (X Y : Fin n → ℝ) : ℝ :=
  (∑ i, (X i - mean X) * (Y i - mean Y)) / ((n : ℝ) - 1)

/-- Sample variance, denominator n - 1 (np.var with ddof = 1). -/
def varSample {n : ℕ} (X : Fin n → ℝ) : ℝ :=
  (∑ i, (X i - mean X) ^ 2) / ((n : ℝ) - 1)

/-- CUPED coefficient from the notebook: theta = np.cov(X, Y)[0, 1] / np.var(X),
mixing the sample covariance (denominator n - 1) with the population
variance (denominator n). -/
def theta {n : ℕ} (X Y : Fin n → ℝ) : ℝ := covSample X Y / varPop X

/-- CUPED adjustment from the notebook: Y_adj = Y - theta * (X - np.mean(X)),
with outcome Y and covariate X. -/
def cupedAdjust {n : ℕ} (Y X : Fin n → ℝ) : Fin n → ℝ :=
  fun i => Y i - theta X Y * (X i - mean X)

/-- Terminal decisions of a hypothesis test. -/
inductive Decision where
  | REJECT_NULL
  | FAIL_TO_REJECT
  deriving DecidableEq

/-- Decision step of the notebook: reject the null exactly when the
p-value is strictly below the significance level. -/
def decision (pValue alpha : ℝ) : Decision :=
  if pValue < alpha then .REJECT_NULL else .FAIL_TO_REJECT

/-- Observed proportion: p_A = conv_A / n_A. -/
def convRate (count n : ℝ) : ℝ := count / n

/-- Per-group standard error: se = sqrt(p * (1 - p) / n). -/
def standardError (p n : ℝ) : ℝ := Real.sqrt (p * (1 - p) / n)

/-- Standard error of the difference in proportions:
se_diff = sqrt(se_A^2 + se_B^2). -/
def seDiff (countA nA countB nB : ℝ) : ℝ :=
  Real.sqrt (standardError (convRate countA nA) nA ^ 2 +
    standardError (convRate countB nB) nB ^ 2)

/-- Z statistic of the two-proportion test: z = (p_B - p_A) / se_diff. -/
def zScore (countA nA countB nB : ℝ) : ℝ :=
  (convRate countB nB - convRate countA nA) / seDiff countA nA countB nB

/-- Two-tailed p-value: 2 * (1 - normalCDF |z|); the standard-normal CDF is
an external collaborator passed as a parameter. -/
def pValueTwoTailed (normalCDF : ℝ → ℝ) (z : ℝ) : ℝ := 2 * (1 - normalCDF |z|)

/-- Minimum detectable effect from the notebook:
mde = (normalQuantile (1 - alpha/2) + normalQuantile power) * sqrt(p*(1-p)/n) * sqrt 2,
with the standard-normal quantile (stats.norm.ppf) as an external collaborator. -/
def minimumDetectableEffect (normalQuantile : ℝ → ℝ)
    (sampleSize alpha power p : ℝ) : ℝ :=
  (normalQuantile (1 - alpha / 2) + normalQuantile power) *
    Real.sqrt (p * (1 - p) / sampleSize) * Real.sqrt 2

/-- Known-variance confidence interval for a mean:
mean sample plus/minus normalQuantile ((1+conf)/2) * popStd / sqrt n;
for conf = 0.95 the quantile is taken at 0.975 as in the notebook. -/
def meanIntervalKnownVariance (normalQuantile : ℝ → ℝ) {n : ℕ}
    (sample : Fin n → ℝ) (popStd conf : ℝ) : ℝ × ℝ :=
  (mean sample - normalQuantile ((1 + conf) / 2) * (popStd / Real.sqrt (n : ℝ)),
   mean sample + normalQuantile ((1 + conf) / 2) * (popStd / Real.sqrt (n : ℝ)))

/-- Two-mean difference confidence interval exactly as in the notebook cell:
two samples of size 100, t critical value at df = 198 and level 0.975,
standard error sqrt(var1/100 + var2/100) with ddof = 1 variances. -/
def twoMeanDiffCI (tQuantile : ℕ → ℝ → ℝ) (sample1 sample2 : Fin 100 → ℝ) : ℝ × ℝ :=
  (mean sample1 - mean sample2 -
     tQuantile 198 0.975 * Real.sqrt (varSample sample1 / 100 + varSample sample2 / 100),
   mean sample1 - mean sample2 +
     tQuantile 198 0.975 * Real.sqrt (varSample sample1 / 100 + varSample sample2 / 100))

/-- Modelled from the spec: twoMeanDifferenceInterval(sampleA, sampleB,
confidenceLevel) returns (meanA - meanB) plus/minus t * sqrt(varA/nA + varB/nB)
where t is the two-tailed Student-t critical value with nA + nB - 2 degrees of
freedom; the general function is absent from src, which has only the concrete
script with nA = nB = 100 and confidence level 0.95. -/
def twoMeanDifferenceInterval (tQuantile : ℕ → ℝ → ℝ) {nA nB : ℕ}
    (A : Fin nA → ℝ) (B : Fin nB → ℝ) (conf : ℝ) : ℝ × ℝ :=
  (mean A - mean B - tQuantile (nA + nB - 2) ((1 + conf) / 2) *
     Real.sqrt (varSample A / (nA : ℝ) + varSample B / (nB : ℝ)),
   mean A - mean B + tQuantile (nA + nB - 2) ((1 + conf) / 2) *
     Real.sqrt (varSample A / (nA : ℝ) + varSample B / (nB : ℝ)))

/-- Error kinds of the chi-square test, from the spec error taxonomy. -/
inductive ChiSquareError where
  | DimensionMismatchError
  | DivisionByZeroError
  deriving DecidableEq

/-- Chi-square statistic: sum over paired entries of (O - E)^2 / E. -/
def chiSquareStat (observed expected : List ℝ) : ℝ :=
  (List.zipWith (fun o e => (o - e) ^ 2 / e) observed expected).sum

/-- Modelled from the spec: chiSquareTest(observed, expected, alpha) computes
the statistic over paired sequences of equal length, failing with
DimensionMismatchError if lengths differ and with DivisionByZeroError if any
expected entry is 0; no chi-square code appears under src, only the formula
in the README and the spec. -/
def chiSquareTest (observed expected : List ℝ) (alpha : ℝ) :
    Except ChiSquareError ℝ :=
  if observed.length ≠ expected.length then .error .DimensionMismatchError
  else if (0 : ℝ) ∈ expected then .error .DivisionByZeroError
  else .ok (chiSquareStat observed expected)

end

theorem sum_sub_mean {n : ℕ} (hn : 0 < n) (X : Fin n → ℝ) :
    ∑ i, (X i - mean X) = 0 := by
  have hne : (n : ℝ) ≠ 0 := Nat.cast_ne_zero.mpr hn.ne'
  rw [Finset.sum_sub_distrib, Finset.sum_const, Finset.card_univ, Fintype.card_fin,
    nsmul_eq_mul, mean]
  field_simp

theorem mean_linear_adjust {n : ℕ} (hn : 0 < n) (X Y : Fin n → ℝ) (c : ℝ) :
    mean (fun i => Y i - c * (X i - mean X)) = mean Y := by
  have h : ∑ i, (Y i - c * (X i - mean X)) = ∑ i, Y i := by
    rw [Finset.sum_sub_distrib, ← Finset.mul_sum, sum_sub_mean hn X, mul_zero, sub_zero]
  show (∑ i, (Y i - c * (X i - mean X))) / (n : ℝ) = (∑ i, Y i) / (n : ℝ)
  rw [h]

theorem covPop_linear_adjust {n : ℕ} (hn : 0 < n) (X Y : Fin n → ℝ) (c : ℝ) :
    covPop X (fun i => Y i - c * (X i - mean X)) = covPop X Y - c * varPop X := by
  have hm := mean_linear_adjust hn X Y c
  show (∑ i, (X i - mean X) *
      ((Y i - c * (X i - mean X)) - mean (fun i => Y i - c * (X i - mean X)))) / (n : ℝ) = _
  rw [hm]
  have hpt : ∀ i : Fin n, (X i - mean X) * ((Y i - c * (X i - mean X)) - mean Y)
      = (X i - mean X) * (Y i - mean Y) - c * (X i - mean X) ^ 2 := fun i => by ring
  rw [Finset.sum_congr rfl fun i _ => hpt i, Finset.sum_sub_distrib, ← Finset.mul_sum]
  unfold covPop varPop
  ring

theorem covSample_eq_covPop {n : ℕ} (hn : 2 ≤ n) (X Y : Fin n → ℝ) :
    covSample X Y = (n : ℝ) / ((n : ℝ) - 1) * covPop X Y := by
  have h1 : (1 : ℝ) < (n : ℝ) := by exact_mod_cast hn
  have hne : (n : ℝ) ≠ 0 := by linarith
  have hne1 : (n : ℝ) - 1 ≠ 0 := by linarith
  unfold covSample covPop
  field_simp
  ring

theorem cuped_residual_cov {n : ℕ} (hn : 2 ≤ n) (X Y : Fin n → ℝ)
    (hv : varPop X ≠ 0) :
    covPop X (cupedAdjust Y X) = -covPop X Y / ((n : ℝ) - 1) := by
  have hn0 : 0 < n := lt_of_lt_of_le (by norm_num) hn
  have h1 : (1 : ℝ) < (n : ℝ) := by exact_mod_cast hn
  have hne1 : (n : ℝ) - 1 ≠ 0 := by linarith
  have hadj : covPop X (cupedAdjust Y X) = covPop X Y - theta X Y * varPop X :=
    covPop_linear_adjust hn0 X Y (theta X Y)
  rw [hadj, theta, div_mul_cancel₀ _ hv, covSample_eq_covPop hn X Y]
  field_simp
  ring

theorem theta_formula {n : ℕ} (hn : 2 ≤ n) (X Y : Fin n → ℝ) :
    theta X Y = (n : ℝ) / ((n : ℝ) - 1) * (covPop X Y / varPop X) := by
  rw [theta, covSample_eq_covPop hn X Y, mul_div_assoc]

/-- C10: with the notebook's mixed denominators (np.cov with ddof 1 over np.var
with ddof 0), the CUPED coefficient equals (n/(n-1)) * cov_pop(X,Y)/var_pop(X),
and the residual population covariance of the covariate with the adjusted
outcome is exactly -cov_pop(X,Y)/(n-1) rather than zero. -/
theorem cuped_theta_mismatch {n : ℕ} (hn : 2 ≤ n) (X Y : Fin n → ℝ)
    (hv : 0 < varPop X) :
    theta X Y = (n : ℝ) / ((n : ℝ) - 1) * (covPop X Y / varPop X) ∧
      covPop X (cupedAdjust Y X) = -covPop X Y / ((n : ℝ) - 1) :=
  ⟨theta_formula hn X Y, cuped_residual_cov hn X Y hv.ne'⟩

/-- Witness for C10 at the covariate (0, 2) and outcome (1, 3). -/
theorem cuped_theta_mismatch_witness :
    2 ≤ 2 ∧ 0 < varPop ![(0 : ℝ), 2] ∧
      (theta ![(0 : ℝ), 2] ![(1 : ℝ), 3] =
          ((2 : ℕ) : ℝ) / (((2 : ℕ) : ℝ) - 1) *
            (covPop ![(0 : ℝ), 2] ![(1 : ℝ), 3] / varPop ![(0 : ℝ), 2]) ∧
        covPop ![(0 : ℝ), 2] (cupedAdjust ![(1 : ℝ), 3] ![(0 : ℝ), 2]) =
          -covPop ![(0 : ℝ), 2] ![(1 : ℝ), 3] / (((2 : ℕ) : ℝ) - 1)) := by
  have hv : 0 < varPop ![(0 : ℝ), 2] := by
    simp [varPop, mean, Fin.sum_univ_two]
    norm_num
  exact ⟨le_refl 2, hv, cuped_theta_mismatch (le_refl 2) ![(0 : ℝ), 2] ![(1 : ℝ), 3] hv⟩

/-- C3 counterexample: for outcome (0, 1) and covariate (0, 1), the covariate
variance is positive but the covariance of the covariate with the
CUPED-adjusted outcome is -1/4, the same magnitude as the original
covariance 1/4, so it is not approximately zero. -/
theorem cupedAdjust_cov_not_zero :
    0 < varPop ![(0 : ℝ), 1] ∧
      covPop ![(0 : ℝ), 1] (cupedAdjust ![(0 : ℝ), 1] ![(0 : ℝ), 1]) = -(1 / 4 : ℝ) ∧
      ¬ |covPop ![(0 : ℝ), 1] (cupedAdjust ![(0 : ℝ), 1] ![(0 : ℝ), 1])| ≤ 1 / 100 := by
  norm_num [covPop, cupedAdjust, theta, covSample, varPop, mean, Fin.sum_univ_two]
  rw [abs_of_nonneg] <;> norm_num

/-- C3 (amended): for same-length samples with n at least 2 and positive
covariate variance, recomputing the covariance after cupedAdjust yields exactly
-cov_pop(X,Y)/(n-1), not approximately zero: it vanishes precisely when the
covariate and the outcome were uncorrelated to begin with. -/
theorem cupedAdjust_residual_cov {n : ℕ} (hn : 2 ≤ n) (X Y : Fin n → ℝ)
    (hv : 0 < varPop X) :
    covPop X (cupedAdjust Y X) = -covPop X Y / ((n : ℝ) - 1) ∧
      (covPop X (cupedAdjust Y X) = 0 ↔ covPop X Y = 0) := by
  have h := cuped_residual_cov hn X Y hv.ne'
  have h1 : (1 : ℝ) < (n : ℝ) := by exact_mod_cast hn
  have hne1 : (n : ℝ) - 1 ≠ 0 := by linarith
  refine ⟨h, ?_⟩
  rw [h, div_eq_zero_iff, neg_eq_zero]
  simp [hne1]

/-- Witness for C3 (amended) at the covariate (1, 3) and outcome (0, 2). -/
theorem cupedAdjust_residual_cov_witness :
    2 ≤ 2 ∧ 0 < varPop ![(1 : ℝ), 3] ∧
      (covPop ![(1 : ℝ), 3] (cupedAdjust ![(0 : ℝ), 2] ![(1 : ℝ), 3]) =
          -covPop ![(1 : ℝ), 3] ![(0 : ℝ), 2] / (((2 : ℕ) : ℝ) - 1) ∧
        (covPop ![(1 : ℝ), 3] (cupedAdjust ![(0 : ℝ), 2] ![(1 : ℝ), 3]) = 0 ↔
          covPop ![(1 : ℝ), 3] ![(0 : ℝ), 2] = 0)) := by
  have hv : 0 < varPop ![(1 : ℝ), 3] := by
    simp [varPop, mean, Fin.sum_univ_two]
    norm_num
  exact ⟨le_refl 2, hv, cupedAdjust_residual_cov (le_refl 2) ![(1 : ℝ), 3] ![(0 : ℝ), 2] hv⟩

/-- C4: for every invocation with alpha in (0,1), the decision is REJECT_NULL
iff the p-value is strictly less than alpha, and a tie (p-value = alpha) gives
FAIL_TO_REJECT. -/
theorem decision_rule (p alpha : ℝ) (h0 : 0 < alpha) (h1 : alpha < 1) :
    (decision p alpha = Decision.REJECT_NULL ↔ p < alpha) ∧
      (p = alpha → decision p alpha = Decision.FAIL_TO_REJECT) := by
  constructor
  · constructor
    · intro hd
      by_contra hnp
      simp [decision, hnp] at hd
    · intro hp
      simp [decision, hp]
  · intro hp
    subst hp
    simp [decision]

/-- Witness for C4 at p = 0.03, alpha = 0.05. -/
theorem decision_rule_witness :
    (0 : ℝ) < 0.05 ∧ (0.05 : ℝ) < 1 ∧
      ((decision 0.03 0.05 = Decision.REJECT_NULL ↔ (0.03 : ℝ) < 0.05) ∧
        ((0.03 : ℝ) = 0.05 → decision 0.03 0.05 = Decision.FAIL_TO_REJECT)) :=
  ⟨by norm_num, by norm_num, decision_rule 0.03 0.05 (by norm_num) (by norm_num)⟩

/-- C7: the notebook two-mean-difference interval equals
(meanA - meanB) plus/minus t * sqrt(varA/nA + varB/nB) with the Student-t
critical value taken at nA + nB - 2 degrees of freedom (198 for the two
samples of 100), not at the Welch-Satterthwaite degrees of freedom. -/
theorem twoMeanDiffCI_uses_pooled_df (tQuantile : ℕ → ℝ → ℝ)
    (sample1 sample2 : Fin 100 → ℝ) :
    twoMeanDiffCI tQuantile sample1 sample2 =
      twoMeanDifferenceInterval tQuantile sample1 sample2 0.95 := by
  unfold twoMeanDiffCI twoMeanDifferenceInterval
  norm_num

/-- C1: for countA = 500, nA = 10000, countB = 600, nB = 10000 the
two-proportion Z-test computes z = (pB - pA)/sqrt(SE_A^2 + SE_B^2) within
0.005 of 3.10, a two-tailed p-value 2*(1 - Phi(|z|)) within 0.0003 of 0.0019,
and decides REJECT_NULL at alpha = 0.05, for any standard-normal CDF whose
value at |z| lies in the stated numerical-accuracy band. -/
theorem twoProportionZTest_scenario (normalCDF : ℝ → ℝ)
    (h1 : 0.99895 ≤ normalCDF |zScore 500 10000 600 10000|)
    (h2 : normalCDF |zScore 500 10000 600 10000| ≤ 0.99909) :
    |zScore 500 10000 600 10000 - 3.10| ≤ 0.005 ∧
      |pValueTwoTailed normalCDF (zScore 500 10000 600 10000) - 0.0019| ≤ 0.0003 ∧
      decision (pValueTwoTailed normalCDF (zScore 500 10000 600 10000)) 0.05 =
        Decision.REJECT_NULL := by
  have hzval : zScore 500 10000 600 10000 = (1 / 100) / Real.sqrt (1039 / 100000000) := by
    unfold zScore seDiff standardError convRate
    rw [Real.sq_sqrt (show (0 : ℝ) ≤ 500 / 10000 * (1 - 500 / 10000) / 10000 by norm_num),
      Real.sq_sqrt (show (0 : ℝ) ≤ 600 / 10000 * (1 - 600 / 10000) / 10000 by norm_num)]
    norm_num
  set s := Real.sqrt (1039 / 100000000) with hs
  have hs0 : 0 ≤ s := Real.sqrt_nonneg _
  have hs2 : s ^ 2 = 1039 / 100000000 := Real.sq_sqrt (by norm_num)
  have hlo : 0.0032207 ≤ s := by nlinarith [sq_nonneg (s - 0.0032207), sq_nonneg (s + 0.0032207)]
  have hhi : s ≤ 0.003231 := by nlinarith [sq_nonneg (s - 0.003231), sq_nonneg (s + 0.003231)]
  have hspos : 0 < s := lt_of_lt_of_le (by norm_num) hlo
  have hzlo : 3.095 ≤ zScore 500 10000 600 10000 := by
    rw [hzval, le_div_iff₀ hspos]
    nlinarith
  have hzhi : zScore 500 10000 600 10000 ≤ 3.105 := by
    rw [hzval, div_le_iff₀ hspos]
    nlinarith
  have hp : pValueTwoTailed normalCDF (zScore 500 10000 600 10000) < 0.05 := by
    unfold pValueTwoTailed
    linarith
  refine ⟨?_, ?_, ?_⟩
  · rw [abs_le]
    constructor <;> linarith
  · unfold pValueTwoTailed
    rw [abs_le]
    constructor <;> [linarith; linarith]
  · unfold decision
    rw [if_pos hp]

/-- Witness for C1 with a constant stand-in for the normal CDF lying in the
accuracy band. -/
theorem twoProportionZTest_scenario_witness :
    (0.99895 ≤ (fun _ : ℝ => (0.999 : ℝ)) |zScore 500 10000 600 10000|) ∧
      ((fun _ : ℝ => (0.999 : ℝ)) |zScore 500 10000 600 10000| ≤ 0.99909) ∧
      (|zScore 500 10000 600 10000 - 3.10| ≤ 0.005 ∧
        |pValueTwoTailed (fun _ : ℝ => (0.999 : ℝ))
            (zScore 500 10000 600 10000) - 0.0019| ≤ 0.0003 ∧
        decision (pValueTwoTailed (fun _ : ℝ => (0.999 : ℝ))
            (zScore 500 10000 600 10000)) 0.05 = Decision.REJECT_NULL) :=
  ⟨by norm_num, by norm_num,
    twoProportionZTest_scenario (fun _ => 0.999) (by norm_num) (by norm_num)⟩

/-- C9: the z statistic has no guard on its denominator: whenever countA is 0
or nA and countB is 0 or nB (with positive group sizes), both standard errors
are zero, so the denominator sqrt(SE_A^2 + SE_B^2) is zero and the z score is
a division by zero (rendered as division by the literal 0). -/
theorem twoProportionZTest_degenerate (countA nA countB nB : ℝ)
    (hnA : 0 < nA) (hnB : 0 < nB)
    (hA : countA = 0 ∨ countA = nA) (hB : countB = 0 ∨ countB = nB) :
    standardError (convRate countA nA) nA = 0 ∧
      standardError (convRate countB nB) nB = 0 ∧
      seDiff countA nA countB nB = 0 ∧
      zScore countA nA countB nB = (convRate countB nB - convRate countA nA) / 0 := by
  have hseA : standardError (convRate countA nA) nA = 0 := by
    rcases hA with h | h
    · subst h
      simp [standardError, convRate]
    · subst h
      unfold standardError convRate
      rw [div_self hnA.ne']
      simp
  have hseB : standardError (convRate countB nB) nB = 0 := by
    rcases hB with h | h
    · subst h
      simp [standardError, convRate]
    · subst h
      unfold standardError convRate
      rw [div_self hnB.ne']
      simp
  have hsd : seDiff countA nA countB nB = 0 := by
    unfold seDiff
    rw [hseA, hseB]
    simp
  refine ⟨hseA, hseB, hsd, ?_⟩
  unfold zScore
  rw [hsd]

/-- Witness for C9 at countA = countB = 0 with nA = nB = 10000. -/
theorem twoProportionZTest_degenerate_witness :
    (0 : ℝ) < 10000 ∧ ((0 : ℝ) = 0 ∨ (0 : ℝ) = 10000) ∧
      (standardError (convRate 0 10000) 10000 = 0 ∧
        standardError (convRate 0 10000) 10000 = 0 ∧
        seDiff 0 10000 0 10000 = 0 ∧
        zScore 0 10000 0 10000 = (convRate 0 10000 - convRate 0 10000) / 0) :=
  ⟨by norm_num, Or.inl rfl,
    twoProportionZTest_degenerate 0 10000 0 10000 (by norm_num) (by norm_num)
      (Or.inl rfl) (Or.inl rfl)⟩

/-- C2: for n = 5000, alpha = 0.05, power = 0.8, baseline proportion 0.5,
the minimum detectable effect (z_crit + z_power) * sqrt(p(1-p)/n) * sqrt 2 is
within 0.0001 of 0.0280, for any standard-normal quantile values in the stated
numerical-accuracy bands around 1.959964 and 0.841621. -/
theorem minimumDetectableEffect_scenario (normalQuantile : ℝ → ℝ)
    (hq1 : 1.9598 ≤ normalQuantile 0.975) (hq2 : normalQuantile 0.975 ≤ 1.9601)
    (hp1 : 0.8415 ≤ normalQuantile 0.8) (hp2 : normalQuantile 0.8 ≤ 0.8418) :
    |minimumDetectableEffect normalQuantile 5000 0.05 0.8 0.5 - 0.0280| ≤ 0.0001 := by
  have harg : (1 : ℝ) - 0.05 / 2 = 0.975 := by norm_num
  have hsq : Real.sqrt (0.5 * (1 - 0.5) / 5000) * Real.sqrt 2 = 0.01 := by
    rw [← Real.sqrt_mul (by norm_num : (0 : ℝ) ≤ 0.5 * (1 - 0.5) / 5000)]
    rw [show (0.5 * (1 - 0.5) / 5000 * 2 : ℝ) = 0.01 ^ 2 by norm_num]
    exact Real.sqrt_sq (by norm_num)
  unfold minimumDetectableEffect
  rw [harg, mul_assoc, hsq, abs_le]
  constructor <;> linarith

/-- Witness for C2 with a linear stand-in for the normal quantile lying in the
accuracy bands. -/
theorem minimumDetectableEffect_scenario_witness :
    (1.9598 ≤ (fun q : ℝ => 6.3909 * q - 4.27112) 0.975) ∧
      ((fun q : ℝ => 6.3909 * q - 4.27112) 0.975 ≤ 1.9601) ∧
      (0.8415 ≤ (fun q : ℝ => 6.3909 * q - 4.27112) 0.8) ∧
      ((fun q : ℝ => 6.3909 * q - 4.27112) 0.8 ≤ 0.8418) ∧
      |minimumDetectableEffect (fun q : ℝ => 6.3909 * q - 4.27112)
          5000 0.05 0.8 0.5 - 0.0280| ≤ 0.0001 :=
  ⟨by norm_num, by norm_num, by norm_num, by norm_num,
    minimumDetectableEffect_scenario (fun q => 6.3909 * q - 4.27112)
      (by norm_num) (by norm_num) (by norm_num) (by norm_num)⟩

/-- C6 counterexample: at baselineProportion 0, with alpha = 0.05 in (0,1),
power = 0.8 in (0,1) and sample sizes 1 < 2, the MDE equals 0 for both sample
sizes (whatever the quantile values are), so the MDE is not strictly
decreasing in the sample size for every baselineProportion. -/
theorem minimumDetectableEffect_not_strictly_decreasing :
    (0 : ℝ) < 0.05 ∧ (0.05 : ℝ) < 1 ∧ (0 : ℝ) < 0.8 ∧ (0.8 : ℝ) < 1 ∧ (1 : ℝ) < 2 ∧
      ¬ minimumDetectableEffect (fun q => q) 2 0.05 0.8 0 <
          minimumDetectableEffect (fun q => q) 1 0.05 0.8 0 := by
  norm_num [minimumDetectableEffect]

/-- C6 (amended): the MDE is strictly decreasing in sampleSizePerGroup
provided the baseline proportion lies strictly between 0 and 1 and the sum of
the two critical values is positive (as it is for the standard normal
quantile whenever power > alpha/2, e.g. alpha = 0.05, power = 0.8). -/
theorem minimumDetectableEffect_strict_anti (normalQuantile : ℝ → ℝ)
    (alpha power p n1 n2 : ℝ)
    (hz : 0 < normalQuantile (1 - alpha / 2) + normalQuantile power)
    (hp0 : 0 < p) (hp1 : p < 1) (hn1 : 0 < n1) (h12 : n1 < n2) :
    minimumDetectableEffect normalQuantile n2 alpha power p <
      minimumDetectableEffect normalQuantile n1 alpha power p := by
  unfold minimumDetectableEffect
  have hq : 0 < p * (1 - p) := by nlinarith
  have hdiv : p * (1 - p) / n2 < p * (1 - p) / n1 :=
    div_lt_div_of_pos_left hq hn1 h12
  have hn2 : 0 < n2 := hn1.trans h12
  have hsq : Real.sqrt (p * (1 - p) / n2) < Real.sqrt (p * (1 - p) / n1) :=
    Real.sqrt_lt_sqrt (le_of_lt (div_pos hq hn2)) hdiv
  have h2 : (0 : ℝ) < Real.sqrt 2 := Real.sqrt_pos.mpr (by norm_num)
  exact mul_lt_mul_of_pos_right (mul_lt_mul_of_pos_left hsq hz) h2

/-- Witness for C6 (amended) at p = 0.5, sample sizes 1 < 4, with a linear
stand-in quantile whose critical-value sum is positive. -/
theorem minimumDetectableEffect_strict_anti_witness :
    (0 : ℝ) < (fun q : ℝ => 2 * q) (1 - 0.05 / 2) + (fun q : ℝ => 2 * q) 0.8 ∧
      (0 : ℝ) < 0.5 ∧ (0.5 : ℝ) < 1 ∧ (0 : ℝ) < 1 ∧ (1 : ℝ) < 4 ∧
      minimumDetectableEffect (fun q : ℝ => 2 * q) 4 0.05 0.8 0.5 <
        minimumDetectableEffect (fun q : ℝ => 2 * q) 1 0.05 0.8 0.5 :=
  ⟨by norm_num, by norm_num, by norm_num, by norm_num, by norm_num,
    minimumDetectableEffect_strict_anti (fun q => 2 * q) 0.05 0.8 0.5 1 4
      (by norm_num) (by norm_num) (by norm_num) (by norm_num) (by norm_num)⟩

/-- C5: meanIntervalKnownVariance returns mean(sample) plus/minus
z * popStd / sqrt n with z the two-tailed critical value at (1+0.95)/2 =
0.975, and in the reference scenario (n = 100, popStd = 10, observed sample
mean about 48.96 as in the seed-42 notebook run, z about 1.959964) the 95%
interval is within 0.01 of (47.00, 50.92). -/
theorem meanIntervalKnownVariance_scenario (normalQuantile : ℝ → ℝ)
    (sample : Fin 100 → ℝ)
    (hm1 : 48.959 ≤ mean sample) (hm2 : mean sample ≤ 48.961)
    (hq1 : 1.95995 ≤ normalQuantile 0.975) (hq2 : normalQuantile 0.975 ≤ 1.95998) :
    meanIntervalKnownVariance normalQuantile sample 10 0.95 =
        (mean sample - normalQuantile 0.975 * (10 / Real.sqrt ((100 : ℕ) : ℝ)),
          mean sample + normalQuantile 0.975 * (10 / Real.sqrt ((100 : ℕ) : ℝ))) ∧
      |(meanIntervalKnownVariance normalQuantile sample 10 0.95).1 - 47.00| ≤ 0.01 ∧
      |(meanIntervalKnownVariance normalQuantile sample 10 0.95).2 - 50.92| ≤ 0.01 := by
  have h975 : ((1 : ℝ) + 0.95) / 2 = 0.975 := by norm_num
  have hsqrt : Real.sqrt ((100 : ℕ) : ℝ) = 10 := by
    rw [show ((100 : ℕ) : ℝ) = 10 ^ 2 by norm_num]
    exact Real.sqrt_sq (by norm_num)
  have heq : meanIntervalKnownVariance normalQuantile sample 10 0.95 =
      (mean sample - normalQuantile 0.975, mean sample + normalQuantile 0.975) := by
    unfold meanIntervalKnownVariance
    rw [h975, hsqrt]
    norm_num
  have hfst : (meanIntervalKnownVariance normalQuantile sample 10 0.95).1 =
      mean sample - normalQuantile 0.975 := by rw [heq]
  have hsnd : (meanIntervalKnownVariance normalQuantile sample 10 0.95).2 =
      mean sample + normalQuantile 0.975 := by rw [heq]
  refine ⟨?_, ?_, ?_⟩
  · rw [heq, hsqrt]
    norm_num
  · rw [hfst, abs_le]
    constructor <;> linarith
  · rw [hsnd, abs_le]
    constructor <;> linarith

/-- Witness for C5 with a constant sample of mean 48.96 and a constant
stand-in for the normal quantile. -/
theorem meanIntervalKnownVariance_scenario_witness :
    (48.959 ≤ mean (fun _ : Fin 100 => (48.96 : ℝ))) ∧
      (mean (fun _ : Fin 100 => (48.96 : ℝ)) ≤ 48.961) ∧
      (1.95995 ≤ (fun _ : ℝ => (1.959964 : ℝ)) 0.975) ∧
      ((fun _ : ℝ => (1.959964 : ℝ)) 0.975 ≤ 1.95998) ∧
      (meanIntervalKnownVariance (fun _ : ℝ => (1.959964 : ℝ))
            (fun _ : Fin 100 => (48.96 : ℝ)) 10 0.95 =
          (mean (fun _ : Fin 100 => (48.96 : ℝ)) -
              (fun _ : ℝ => (1.959964 : ℝ)) 0.975 * (10 / Real.sqrt ((100 : ℕ) : ℝ)),
            mean (fun _ : Fin 100 => (48.96 : ℝ)) +
              (fun _ : ℝ => (1.959964 : ℝ)) 0.975 * (10 / Real.sqrt ((100 : ℕ) : ℝ))) ∧
        |(meanIntervalKnownVariance (fun _ : ℝ => (1.959964 : ℝ))
            (fun _ : Fin 100 => (48.96 : ℝ)) 10 0.95).1 - 47.00| ≤ 0.01 ∧
        |(meanIntervalKnownVariance (fun _ : ℝ => (1.959964 : ℝ))
            (fun _ : Fin 100 => (48.96 : ℝ)) 10 0.95).2 - 50.92| ≤ 0.01) := by
  have hmean : mean (fun _ : Fin 100 => (48.96 : ℝ)) = 48.96 := by
    simp [mean, Finset.sum_const, Finset.card_univ]
  exact ⟨by rw [hmean]; norm_num, by rw [hmean]; norm_num, by norm_num, by norm_num,
    meanIntervalKnownVariance_scenario (fun _ => 1.959964) (fun _ => 48.96)
      (by rw [hmean]; norm_num) (by rw [hmean]; norm_num) (by norm_num) (by norm_num)⟩

/-- C8: for equal-length observed/expected sequences, chiSquareTest fails
with DivisionByZeroError when some expected entry is 0 (returning no
statistic), and otherwise returns the statistic: the sum over pairs of
(O - E)^2 / E. -/
theorem chiSquareTest_spec (observed expected : List ℝ) (alpha : ℝ)
    (hlen : observed.length = expected.length) :
    ((∃ e ∈ expected, e = 0) →
        chiSquareTest observed expected alpha =
          Except.error ChiSquareError.DivisionByZeroError) ∧
      ((∀ e ∈ expected, e ≠ 0) →
        chiSquareTest observed expected alpha =
          Except.ok (chiSquareStat observed expected)) := by
  constructor
  · rintro ⟨e, he, rfl⟩
    unfold chiSquareTest
    rw [if_neg (by simp [hlen]), if_pos he]
  · intro h
    unfold chiSquareTest
    rw [if_neg (by simp [hlen]), if_neg]
    intro h0
    exact h 0 h0 rfl

/-- Witness for C8: expected sequence (5, 0) of the same length as the
observed sequence (4, 6) makes the test fail with DivisionByZeroError. -/
theorem chiSquareTest_spec_witness :
    ([4, 6] : List ℝ).length = ([5, 0] : List ℝ).length ∧
      (∃ e ∈ ([5, 0] : List ℝ), e = 0) ∧
      chiSquareTest [4, 6] [5, 0] 0.05 =
        Except.error ChiSquareError.DivisionByZeroError := by
  have hex : ∃ e ∈ ([5, 0] : List ℝ), e = 0 := ⟨0, by simp, rfl⟩
  exact ⟨rfl, hex, (chiSquareTest_spec [4, 6] [5, 0] 0.05 rfl).1 hex⟩

end Stats
